import Mathlib

/-!
# Formal model of the telematics ingestion pipeline

A shallow embedding of the ingestion/validation/aggregation pipeline of
`process_data.py`.  Rows are modelled after the coercion stage of the
pipeline (pandas `to_datetime` / `to_numeric`): every cell is an `Option`
whose `none` stands for the NaN/NaT produced by a missing column
(backfilled), an empty cell, non-numeric text, or a failed timestamp
parse.  Real-valued sensor readings are modelled as rationals.  The
"|"-joined tag strings built by the script (`rejection_reasons`,
`salvage_notes`) are modelled as lists of tags, in the exact order the
script appends them.
-/

namespace Telematics

/-- The six sensor fields, in the iteration order of the `VALID_RANGES`
dict of the script. -/
inductive SensorField where
  | speed_kmph
  | battery_voltage
  | battery_current
  | soc_percent
  | motor_temp_c
  | cell_temp_c
  deriving DecidableEq, Repr

/-- Inclusive valid range `[lo, hi]` per sensor field (`VALID_RANGES`). -/
def VALID_RANGES : SensorField → ℚ × ℚ
  | .speed_kmph => (0, 250)
  | .battery_voltage => (200, 1000)
  | .battery_current => (-500, 500)
  | .soc_percent => (0, 100)
  | .motor_temp_c => (-40, 200)
  | .cell_temp_c => (-40, 100)

/-- Canonical name of a sensor field. -/
def SensorField.fieldName : SensorField → String
  | .speed_kmph => "speed_kmph"
  | .battery_voltage => "battery_voltage"
  | .battery_current => "battery_current"
  | .soc_percent => "soc_percent"
  | .motor_temp_c => "motor_temp_c"
  | .cell_temp_c => "cell_temp_c"

/-- The salvage tag appended for a sensor field
(`f"|{col}_out_of_range"` in the script). -/
def fieldTag (f : SensorField) : String := f.fieldName ++ "_out_of_range"

/-- All sensor fields, in `VALID_RANGES` dict order (the order of
`for col, (lo, hi) in VALID_RANGES.items()`). -/
def SENSOR_FIELDS : List SensorField :=
  [.speed_kmph, .battery_voltage, .battery_current, .soc_percent,
   .motor_temp_c, .cell_temp_c]

/-- One raw-path input row after column backfill, timestamp parsing and
numeric coercion (lines 144-157 of the script).  `timestamp` is the
parsed UTC instant in whole seconds (`none` = NaT), each sensor cell is
the coerced number (`none` = NaN). -/
structure RawRow where
  trip_id : Option String
  timestamp : Option Int
  speed_kmph : Option ℚ
  battery_voltage : Option ℚ
  battery_current : Option ℚ
  soc_percent : Option ℚ
  motor_temp_c : Option ℚ
  cell_temp_c : Option ℚ
  deriving DecidableEq, Repr

/-- Sensor cell of a raw row, by field. -/
def RawRow.sensor (r : RawRow) : SensorField → Option ℚ
  | .speed_kmph => r.speed_kmph
  | .battery_voltage => r.battery_voltage
  | .battery_current => r.battery_current
  | .soc_percent => r.soc_percent
  | .motor_temp_c => r.motor_temp_c
  | .cell_temp_c => r.cell_temp_c

/-- A row after validation: salvaged sensor values plus the derived
`rejection_reasons`, `salvage_notes` and `validation_status` columns. -/
structure ValidatedRow where
  trip_id : Option String
  timestamp : Option Int
  speed_kmph : Option ℚ
  battery_voltage : Option ℚ
  battery_current : Option ℚ
  soc_percent : Option ℚ
  motor_temp_c : Option ℚ
  cell_temp_c : Option ℚ
  rejection_reasons : List String
  salvage_notes : List String
  validation_status : String
  deriving DecidableEq, Repr

/-- Sensor cell of a validated row, by field. -/
def ValidatedRow.sensor (r : ValidatedRow) : SensorField → Option ℚ
  | .speed_kmph => r.speed_kmph
  | .battery_voltage => r.battery_voltage
  | .battery_current => r.battery_current
  | .soc_percent => r.soc_percent
  | .motor_temp_c => r.motor_temp_c
  | .cell_temp_c => r.cell_temp_c

/-- `Series.between(lo, hi)` of the script: inclusive bounds, `false` on
NaN.  `invalid` in the script is the negation of this. -/
def inRange (f : SensorField) : Option ℚ → Bool
  | none => false
  | some x => decide ((VALID_RANGES f).1 ≤ x) && decide (x ≤ (VALID_RANGES f).2)

/-- Sensor value after range salvage: out-of-range (or NaN) cells are
set to NaN (`chunk.loc[invalid, col] = np.nan`). -/
def salvagedSensor (r : RawRow) (f : SensorField) : Option ℚ :=
  if inRange f (r.sensor f) then r.sensor f else none

/-- The hard-reject tags of lines 160-161 of the script, in append
order: `missing_trip_id` then `invalid_timestamp`. -/
def hardReasons (r : RawRow) : List String :=
  (if r.trip_id.isNone then ["missing_trip_id"] else []) ++
    (if r.timestamp.isNone then ["invalid_timestamp"] else [])

/-- `chunk[list(VALID_RANGES.keys())].isna().all(axis=1)` evaluated
after salvage. -/
def allSensorsNull (r : RawRow) : Bool :=
  SENSOR_FIELDS.all fun f => (salvagedSensor r f).isNone

/-- Final `rejection_reasons` of a row: hard rejects, then the
total-exhaustion tag `all_sensors_invalid`. -/
def rejectionReasons (r : RawRow) : List String :=
  hardReasons r ++ (if allSensorsNull r then ["all_sensors_invalid"] else [])

/-- Final `salvage_notes` of a row, in `VALID_RANGES` iteration order:
one `<field>_out_of_range` tag per field failing `between`. -/
def salvageNotes (r : RawRow) : List String :=
  SENSOR_FIELDS.filterMap fun f =>
    if inRange f (r.sensor f) then none else some (fieldTag f)

/-- The whole per-row validation of one chunk iteration
(lines 148-175 of the script). -/
def validateRow (r : RawRow) : ValidatedRow :=
  { trip_id := r.trip_id
    timestamp := r.timestamp
    speed_kmph := salvagedSensor r .speed_kmph
    battery_voltage := salvagedSensor r .battery_voltage
    battery_current := salvagedSensor r .battery_current
    soc_percent := salvagedSensor r .soc_percent
    motor_temp_c := salvagedSensor r .motor_temp_c
    cell_temp_c := salvagedSensor r .cell_temp_c
    rejection_reasons := rejectionReasons r
    salvage_notes := salvageNotes r
    validation_status := if rejectionReasons r = [] then "valid" else "rejected" }

/-- Validate a chunk and partition it by `rejected_mask`
(`rejection_reasons != ""`): validated subset first, rejected subset
second, both in original row order (lines 174-178). -/
def processChunk (rows : List RawRow) : List ValidatedRow × List ValidatedRow :=
  ((rows.map validateRow).filter (fun v => v.rejection_reasons = []),
   (rows.map validateRow).filter (fun v => ¬ v.rejection_reasons = []))

/-- The chunk loop: each chunk is validated independently; its validated
and rejected subsets are appended to the running datasets, in chunk
order (the `validated_rows` / `rejected_rows` accumulators plus the
final `pd.concat`). -/
def runChunks (chunks : List (List RawRow)) : List ValidatedRow × List ValidatedRow :=
  chunks.foldl
    (fun acc ch => (acc.1 ++ (processChunk ch).1, acc.2 ++ (processChunk ch).2))
    ([], [])

/-- The CleanedDataset produced from one undivided chunk of rows. -/
def cleanedRows (rows : List RawRow) : List ValidatedRow := (processChunk rows).1

/-- The RejectedDataset produced from one undivided chunk of rows. -/
def rejectedRows (rows : List RawRow) : List ValidatedRow := (processChunk rows).2

/-! ## Trip aggregation (raw path, lines 189-215) -/

/-- The gap threshold (`GAP_THRESHOLD_SEC = 300`), as a rational number
of seconds. -/
def GAP_THRESHOLD_SEC : ℚ := 300

/-- Sort key: the row's timestamp.  Every row of the CleanedDataset has
a non-`none` timestamp (an unparsable timestamp rejects the row), so the
default only pads the type. -/
def tsKey (r : ValidatedRow) : Int := r.timestamp.getD 0

/-- Insert a row into a timestamp-ascending list. -/
def insertByTs (r : ValidatedRow) : List ValidatedRow → List ValidatedRow
  | [] => [r]
  | x :: xs => if tsKey r ≤ tsKey x then r :: x :: xs else x :: insertByTs r xs

/-- `g.sort_values("timestamp")`: the trip's rows in timestamp-ascending
order. -/
def sortByTs : List ValidatedRow → List ValidatedRow
  | [] => []
  | x :: xs => insertByTs x (sortByTs xs)

/-- `g["timestamp"].diff().dt.total_seconds().clip(lower=0)`: the
inter-sample deltas in seconds, one per row; the first row's delta is
NaN (`none`), each later row carries the clipped difference to its
predecessor. -/
def dtSec (g : List ValidatedRow) : List (Option ℚ) :=
  match g with
  | [] => []
  | _ :: tl =>
    none :: List.zipWith (fun a b => some (max (((tsKey b - tsKey a : Int) : ℚ)) 0)) g tl

/-- `dt_sec > GAP_THRESHOLD_SEC`: NaN compares false. -/
def isGap : Option ℚ → Bool
  | none => false
  | some d => decide (GAP_THRESHOLD_SEC < d)

/-- Maximum of a list of rationals, `none` when empty (pandas
`max(skipna=True)` over the non-null values). -/
def optMax (l : List ℚ) : Option ℚ :=
  l.foldl (fun acc x => match acc with | none => some x | some m => some (max m x)) none

/-- Minimum of a list of rationals, `none` when empty. -/
def optMin (l : List ℚ) : Option ℚ :=
  l.foldl (fun acc x => match acc with | none => some x | some m => some (min m x)) none

/-- Mean of a list of rationals, `none` when empty (pandas
`mean(skipna=True)` over the non-null values). -/
def optMean (l : List ℚ) : Option ℚ :=
  if l.isEmpty then none else some (l.sum / l.length)

/-- One TripAggregate row of the raw-path metrics list
(the dict appended at lines 201-213). -/
structure TripMetrics where
  trip_id : String
  rows : Nat
  duration_minutes : ℚ
  gap_count : Nat
  max_speed : Option ℚ
  avg_speed : Option ℚ
  distance_km : ℚ
  max_motor_temp : Option ℚ
  max_cell_temp : Option ℚ
  min_battery_voltage : Option ℚ
  max_current : Option ℚ
  deriving DecidableEq, Repr

/-- Aggregate one trip group (the body of the
`for trip_id, g in cleaned_df.groupby("trip_id")` loop). -/
def aggregateTrip (tid : String) (rows : List ValidatedRow) : TripMetrics :=
  let g := sortByTs rows
  let dts := dtSec g
  let durationSec : ℚ := (dts.map fun d => d.getD 0).sum
  let dist : ℚ :=
    (List.zipWith (fun r d => r.speed_kmph.getD 0 * (Option.getD d 0) / 3600) g dts).sum
  { trip_id := tid
    rows := g.length
    duration_minutes := durationSec / 60
    gap_count := dts.countP isGap
    max_speed := optMax (g.filterMap (·.speed_kmph))
    avg_speed := optMean (g.filterMap (·.speed_kmph))
    distance_km := dist
    max_motor_temp := optMax (g.filterMap (·.motor_temp_c))
    max_cell_temp := optMax (g.filterMap (·.cell_temp_c))
    min_battery_voltage := optMin (g.filterMap (·.battery_voltage))
    max_current := optMax (g.filterMap (·.battery_current)) }

/-- Lexicographic comparison of character lists, by code point. -/
def charListLe : List Char → List Char → Bool
  | [], _ => true
  | _ :: _, [] => false
  | a :: as, b :: bs =>
    if a.toNat < b.toNat then true
    else if b.toNat < a.toNat then false
    else charListLe as bs

/-- Lexicographic string order (the ascending order pandas uses for
group keys). -/
def strLe (a b : String) : Bool := charListLe a.data b.data

/-- Insert a string into an ascending list. -/
def insertStr (s : String) : List String → List String
  | [] => [s]
  | x :: xs => if strLe s x then s :: x :: xs else x :: insertStr s xs

/-- Sort a list of strings ascending. -/
def sortStrings : List String → List String
  | [] => []
  | x :: xs => insertStr x (sortStrings xs)

/-- The group keys of `cleaned_df.groupby("trip_id")`: the distinct
trip ids, in ascending order (pandas sorts group keys). -/
def tripKeys (cleaned : List ValidatedRow) : List String :=
  (sortStrings (cleaned.filterMap (·.trip_id))).dedup

/-- The rows of one trip group, in original dataset order. -/
def tripGroup (cleaned : List ValidatedRow) (tid : String) : List ValidatedRow :=
  cleaned.filter (fun r => r.trip_id = some tid)

/-- The raw-path TripMetricsDataset derived from a CleanedDataset: one
aggregate per group key. -/
def tripMetricsOf (cleaned : List ValidatedRow) : List TripMetrics :=
  (tripKeys cleaned).map fun tid => aggregateTrip tid (tripGroup cleaned tid)

/-- End-to-end raw path: validate the rows, keep the valid ones,
aggregate per trip. -/
def rawTripMetrics (rows : List RawRow) : List TripMetrics :=
  tripMetricsOf (cleanedRows rows)

/-! ## Alias resolution (lines 35-60) -/

/-- `COLUMN_ALIASES`: canonical field name to accepted header
spellings, in the dict's insertion order. -/
def COLUMN_ALIASES : List (String × List String) :=
  [("trip_id", ["trip_id", "tripid", "vehicle_id", "vehicleid"]),
   ("timestamp", ["timestamp", "time", "utc_timestamp", "datetime"]),
   ("speed_kmph", ["speed_kmph", "speed", "vehicle_speed"]),
   ("battery_voltage", ["battery_voltage", "batteryvoltage", "voltage"]),
   ("battery_current", ["battery_current", "batterycurrent", "current"]),
   ("soc_percent", ["soc_percent", "soc", "state_of_charge"]),
   ("motor_temp_c", ["motor_temp_c", "motortemp", "motor_temperature"]),
   ("cell_temp_c", ["cell_temp_c", "celltemp", "cell_temperature"])]

/-- Python dict assignment `m[k] = v` on an association list: update in
place when the key exists, append otherwise. -/
def insertAssoc (m : List (String × String)) (k v : String) : List (String × String) :=
  if m.any (fun p => p.1 = k) then m.map (fun p => if p.1 = k then (k, v) else p)
  else m ++ [(k, v)]

/-- One step of the `rename_map` construction for one canonical entry:
scan the headers in order, record the first one that is an alias, then
`break`. -/
def renameStep (cols : List String) (m : List (String × String))
    (ca : String × List String) : List (String × String) :=
  match cols.find? (fun c => ca.2.contains c) with
  | some col => insertAssoc m col ca.1
  | none => m

/-- `resolve_columns`' `rename_map`: fold the canonical entries in
`COLUMN_ALIASES` order. -/
def renameMap (cols : List String) : List (String × String) :=
  COLUMN_ALIASES.foldl (renameStep cols) []

/-- Lookup in an association list (Python dict `.get`). -/
def lookupAssoc (m : List (String × String)) (k : String) : Option String :=
  (m.find? (fun p => p.1 = k)).map (·.2)

/-- `df.rename(columns=rename_map)`: each header is replaced by its
mapped canonical name when present in the map, kept otherwise. -/
def resolve_columns (cols : List String) : List String :=
  cols.map fun c => (lookupAssoc (renameMap cols) c).getD c

/-! ## Trip-level passthrough (lines 98-126) -/

/-- One trip-level input row after header normalization and alias
resolution: `trip_id` plus the aggregate columns read through
`df.get`; a cell is `none` when its column is absent or the cell is
null. -/
structure TripLevelRow where
  trip_id : Option String
  duration_minutes : Option ℚ
  speed_avg : Option ℚ
  distance_km : Option ℚ
  speed_max : Option ℚ
  motor_temp_max : Option ℚ
  cell_temp_max : Option ℚ
  energy_consumed_kwh : Option ℚ
  deriving DecidableEq, Repr

/-- One row of the trip-level `trip_metrics_df`. -/
structure TripLevelMetricsRow where
  trip_id : Option String
  duration_minutes : Option ℚ
  avg_speed : Option ℚ
  distance_km : Option ℚ
  max_speed : Option ℚ
  max_motor_temp : Option ℚ
  max_cell_temp : Option ℚ
  energy_consumed_kwh : Option ℚ
  deriving DecidableEq, Repr

/-- The trip-level passthrough: drop rows with null `trip_id`
(`df[df["trip_id"].notna()]`), then map each remaining row's aggregate
columns straight into the metrics schema. -/
def tripLevelMetrics (rows : List TripLevelRow) : List TripLevelMetricsRow :=
  (rows.filter (fun r => r.trip_id.isSome)).map fun r =>
    { trip_id := r.trip_id
      duration_minutes := r.duration_minutes
      avg_speed := r.speed_avg
      distance_km := r.distance_km
      max_speed := r.speed_max
      max_motor_temp := r.motor_temp_max
      max_cell_temp := r.cell_temp_max
      energy_consumed_kwh := r.energy_consumed_kwh }

/-! ## Output column contracts -/

/-- Column names of the trip-level `trip_metrics_df`: the keys of the
dict literal at lines 108-117, present even when the frame is empty
(`pd.DataFrame` of a dict of columns). -/
def TRIP_LEVEL_METRICS_COLUMNS : List String :=
  ["trip_id", "duration_minutes", "avg_speed", "distance_km", "max_speed",
   "max_motor_temp", "max_cell_temp", "energy_consumed_kwh"]

/-- Column names of one raw-path metrics dict (lines 201-213), in
insertion order. -/
def RAW_METRICS_ROW_KEYS : List String :=
  ["trip_id", "rows", "duration_minutes", "gap_count", "max_speed",
   "avg_speed", "distance_km", "max_motor_temp", "max_cell_temp",
   "min_battery_voltage", "max_current"]

/-- Column names of `final_metrics_df = pd.DataFrame(metrics)`: a
`DataFrame` built from a list of identically-keyed dicts has those keys
as columns, but from an empty list it has no columns at all. -/
def rawMetricsColumns (rows : List RawRow) : List String :=
  if rawTripMetrics rows = [] then [] else RAW_METRICS_ROW_KEYS

/-- The five column names the reporting layer depends on. -/
def REPORTING_COLUMNS : List String :=
  ["trip_id", "duration_minutes", "avg_speed", "distance_km", "max_speed"]

/-- Spec-side count for the gap claim: among the successive pairs of
the trip's rows after the timestamp-ascending sort, those whose
negatives-clipped delta strictly exceeds the gap threshold. -/
def gapCountSpec (g : List ValidatedRow) : Nat :=
  ((g.zip g.tail).map fun p => max (((tsKey p.2 - tsKey p.1 : Int) : ℚ)) 0).countP
    fun d => decide (GAP_THRESHOLD_SEC < d)

/-- The two rows of the spec's aggregation scenario: trip A at t = 0 s
with speed 50 and at t = 600 s with speed 60, all other sensors null. -/
def scenario1 : RawRow :=
  { trip_id := some "A", timestamp := some 0, speed_kmph := some 50,
    battery_voltage := none, battery_current := none, soc_percent := none,
    motor_temp_c := none, cell_temp_c := none }

/-- Second scenario row. -/
def scenario2 : RawRow :=
  { trip_id := some "A", timestamp := some 600, speed_kmph := some 60,
    battery_voltage := none, battery_current := none, soc_percent := none,
    motor_temp_c := none, cell_temp_c := none }

/-- A row whose `battery_voltage` is far out of range while `speed_kmph`
is valid (the spec's voltage-salvage scenario). -/
def voltageRow : RawRow :=
  { trip_id := some "A", timestamp := some 0, speed_kmph := some 50,
    battery_voltage := some 5000, battery_current := none, soc_percent := none,
    motor_temp_c := none, cell_temp_c := none }

/-- A row with trip id and timestamp but every sensor cell missing. -/
def noSensorRow : RawRow :=
  { trip_id := some "B", timestamp := some 0, speed_kmph := none,
    battery_voltage := none, battery_current := none, soc_percent := none,
    motor_temp_c := none, cell_temp_c := none }

/-- A completely empty row: every cell null, hence rejected. -/
def allNullRow : RawRow :=
  { trip_id := none, timestamp := none, speed_kmph := none,
    battery_voltage := none, battery_current := none, soc_percent := none,
    motor_temp_c := none, cell_temp_c := none }

/-- A trip-level input row for trip A. -/
def dupTripRow : TripLevelRow :=
  { trip_id := some "A", duration_minutes := some 30, speed_avg := some 40,
    distance_km := some 20, speed_max := some 80, motor_temp_max := none,
    cell_temp_max := none, energy_consumed_kwh := none }

/-- A trip-level input row with a null trip id. -/
def nullTripRow : TripLevelRow :=
  { trip_id := none, duration_minutes := some 5, speed_avg := some 10,
    distance_km := some 1, speed_max := some 20, motor_temp_max := none,
    cell_temp_max := none, energy_consumed_kwh := none }

/-- A trip-level input row for trip B. -/
def tripRowB : TripLevelRow :=
  { trip_id := some "B", duration_minutes := some 60, speed_avg := some 50,
    distance_km := some 50, speed_max := some 90, motor_temp_max := none,
    cell_temp_max := none, energy_consumed_kwh := some 3 }

/-! ## Helper lemmas -/

theorem mem_SENSOR_FIELDS (f : SensorField) : f ∈ SENSOR_FIELDS := by
  cases f <;> simp [SENSOR_FIELDS]

theorem sensor_validateRow (r : RawRow) (f : SensorField) :
    (validateRow r).sensor f = salvagedSensor r f := by
  cases f <;> rfl

theorem allSensorsNull_iff (r : RawRow) :
    allSensorsNull r = true ↔ ∀ f, salvagedSensor r f = none := by
  simp only [allSensorsNull, List.all_eq_true, Option.isNone_iff_eq_none]
  exact ⟨fun h f => h f (mem_SENSOR_FIELDS f), fun h f _ => h f⟩

theorem status_rejected_iff (r : RawRow) :
    (validateRow r).validation_status = "rejected" ↔ rejectionReasons r ≠ [] := by
  show (if rejectionReasons r = [] then "valid" else "rejected") = "rejected" ↔ _
  by_cases h : rejectionReasons r = [] <;> simp [h]

theorem rejectionReasons_ne_nil_iff (r : RawRow) :
    rejectionReasons r ≠ [] ↔
      (r.trip_id = none ∨ r.timestamp = none ∨ allSensorsNull r = true) := by
  unfold rejectionReasons hardReasons
  by_cases h1 : r.trip_id = none <;> by_cases h2 : r.timestamp = none <;>
    by_cases h3 : allSensorsNull r <;>
      simp [h1, h2, h3, Option.isNone_iff_eq_none]

theorem processChunk_append (l l' : List RawRow) :
    processChunk (l ++ l') =
      ((processChunk l).1 ++ (processChunk l').1,
       (processChunk l).2 ++ (processChunk l').2) := by
  simp [processChunk, List.filter_append]

theorem runChunks_go (chunks : List (List RawRow)) (a b : List ValidatedRow) :
    chunks.foldl
        (fun acc ch => (acc.1 ++ (processChunk ch).1, acc.2 ++ (processChunk ch).2))
        (a, b)
      = (a ++ (processChunk chunks.flatten).1, b ++ (processChunk chunks.flatten).2) := by
  induction chunks generalizing a b with
  | nil => simp [processChunk]
  | cons c cs ih =>
    simp only [List.foldl_cons, List.flatten_cons, processChunk_append, ih,
      List.append_assoc]

/-! ## Claim theorems -/

/-- C2: in the raw path, a row's final `validation_status` is
`rejected` iff its `trip_id` is null, or its timestamp failed to parse,
or every sensor field is null after range salvage; equivalently,
`validation_status = rejected` exactly when `rejection_reasons` is
non-empty. -/
theorem rejected_iff_reasons (r : RawRow) :
    ((validateRow r).validation_status = "rejected" ↔
        (validateRow r).rejection_reasons ≠ []) ∧
    ((validateRow r).validation_status = "rejected" ↔
        (r.trip_id = none ∨ r.timestamp = none ∨
          ∀ f, (validateRow r).sensor f = none)) := by
  constructor
  · exact status_rejected_iff r
  · rw [status_rejected_iff r, rejectionReasons_ne_nil_iff r, allSensorsNull_iff r]
    simp only [sensor_validateRow]

/-- C7: for every chunk, the validated subset's row count plus the
rejected subset's row count equals the chunk's input row count. -/
theorem no_silent_drops (rows : List RawRow) :
    (processChunk rows).1.length + (processChunk rows).2.length = rows.length := by
  simp only [processChunk, decide_not]
  induction rows with
  | nil => rfl
  | cons r rs ih =>
    by_cases h : (validateRow r).rejection_reasons = [] <;>
      simp only [List.map_cons, List.filter_cons, h, decide_not] <;>
        simp [h] <;> omega

/-- C6: for every decomposition of the raw rows into chunks, the
chunked run produces the same CleanedDataset, the same RejectedDataset
(same values, same order) and hence the same TripMetricsDataset as
processing all rows as a single chunk. -/
theorem chunking_is_invisible (chunks : List (List RawRow)) :
    (runChunks chunks).1 = cleanedRows chunks.flatten ∧
    (runChunks chunks).2 = rejectedRows chunks.flatten ∧
    tripMetricsOf (runChunks chunks).1 = rawTripMetrics chunks.flatten := by
  have h := runChunks_go chunks [] []
  unfold runChunks cleanedRows rejectedRows rawTripMetrics
  rw [h]
  simp [cleanedRows]

theorem countP_dtSec (g : List ValidatedRow) :
    (dtSec g).countP isGap = gapCountSpec g := by
  cases g with
  | nil => rfl
  | cons x tl =>
    simp only [dtSec, gapCountSpec, List.countP_cons, isGap, List.tail_cons,
      List.zip_eq_zipWith, List.map_zipWith]
    rw [← List.map_zipWith some, List.countP_map]
    rfl

/-- C9: for every trip of the raw path, `gap_count` equals the number
of successive inter-sample deltas — taken after sorting the trip's rows
by timestamp ascending and clipping negative deltas to zero — that
strictly exceed the gap threshold of 300 seconds. -/
theorem gap_count_counts_exceedances (rows : List RawRow) (tid : String) :
    (aggregateTrip tid (tripGroup (cleanedRows rows) tid)).gap_count
      = gapCountSpec (sortByTs (tripGroup (cleanedRows rows) tid)) := by
  show (dtSec (sortByTs (tripGroup (cleanedRows rows) tid))).countP isGap = _
  exact countP_dtSec _

theorem inRange_false_of_out (f : SensorField) (v : ℚ)
    (hout : v < (VALID_RANGES f).1 ∨ (VALID_RANGES f).2 < v) :
    inRange f (some v) = false := by
  simp only [inRange, Bool.and_eq_false_iff, decide_eq_false_iff_not, not_le]
  exact hout.imp id id

/-- C8: for every raw-path row and every sensor field whose coerced
value lies outside the field's inclusive `[lo, hi]` range, the stored
value becomes null and `salvage_notes` contains the
`<field>_out_of_range` tag; the row's rejected status is still governed
solely by the three hard conditions (null trip id, unparsable
timestamp, all sensors null after salvage), so salvage alone never
rejects the row. -/
theorem out_of_range_is_salvaged (r : RawRow) (f : SensorField) (v : ℚ)
    (hv : r.sensor f = some v)
    (hout : v < (VALID_RANGES f).1 ∨ (VALID_RANGES f).2 < v) :
    (validateRow r).sensor f = none ∧
    fieldTag f ∈ (validateRow r).salvage_notes ∧
    ((validateRow r).validation_status = "rejected" ↔
      (r.trip_id = none ∨ r.timestamp = none ∨
        ∀ g, (validateRow r).sensor g = none)) := by
  have hnr : inRange f (r.sensor f) = false := by
    rw [hv]; exact inRange_false_of_out f v hout
  refine ⟨?_, ?_, ?_⟩
  · rw [sensor_validateRow]
    simp [salvagedSensor, hnr]
  · show fieldTag f ∈ salvageNotes r
    simp only [salvageNotes, List.mem_filterMap]
    exact ⟨f, mem_SENSOR_FIELDS f, by simp [hnr]⟩
  · rw [status_rejected_iff r, rejectionReasons_ne_nil_iff r, allSensorsNull_iff r]
    simp only [sensor_validateRow]

/-- C8 witness: the voltage-5000 row is salvaged, tagged, and the
status criterion holds for it. -/
theorem out_of_range_is_salvaged_witness :
    voltageRow.sensor .battery_voltage = some 5000 ∧
    ((5000 : ℚ) < (VALID_RANGES .battery_voltage).1 ∨
      (VALID_RANGES .battery_voltage).2 < 5000) ∧
    ((validateRow voltageRow).sensor .battery_voltage = none ∧
      fieldTag .battery_voltage ∈ (validateRow voltageRow).salvage_notes ∧
      ((validateRow voltageRow).validation_status = "rejected" ↔
        (voltageRow.trip_id = none ∨ voltageRow.timestamp = none ∨
          ∀ g, (validateRow voltageRow).sensor g = none))) :=
  ⟨by decide, by decide,
   out_of_range_is_salvaged voltageRow .battery_voltage 5000 (by decide) (by decide)⟩

/-- C10: a sensor cell that is null after coercion (absent column,
empty cell, or non-numeric text) also receives the
`<field>_out_of_range` salvage note, so a salvage note does not imply
an out-of-range number was present; a row whose sensor cells are all
null accumulates every such note and is rejected as
`all_sensors_invalid`. -/
theorem null_sensor_gets_note (r : RawRow) (f : SensorField) :
    (r.sensor f = none → fieldTag f ∈ (validateRow r).salvage_notes) ∧
    ((∀ g, r.sensor g = none) →
      (validateRow r).salvage_notes = SENSOR_FIELDS.map fieldTag ∧
      "all_sensors_invalid" ∈ (validateRow r).rejection_reasons ∧
      (validateRow r).validation_status = "rejected") := by
  constructor
  · intro h
    have hnr : inRange f (r.sensor f) = false := by rw [h]; rfl
    show fieldTag f ∈ salvageNotes r
    simp only [salvageNotes, List.mem_filterMap]
    exact ⟨f, mem_SENSOR_FIELDS f, by simp [hnr]⟩
  · intro h
    have hall : allSensorsNull r = true := by
      rw [allSensorsNull_iff]
      intro g
      simp [salvagedSensor, h g]
    refine ⟨?_, ?_, ?_⟩
    · show salvageNotes r = _
      simp only [salvageNotes, h, inRange]
      rfl
    · show "all_sensors_invalid" ∈ rejectionReasons r
      simp [rejectionReasons, hall]
    · rw [status_rejected_iff r, rejectionReasons_ne_nil_iff r]
      exact Or.inr (Or.inr hall)

/-- C10 witness: the all-sensors-missing row gets every salvage note
and is rejected as `all_sensors_invalid`. -/
theorem null_sensor_gets_note_witness :
    noSensorRow.sensor .speed_kmph = none ∧
    fieldTag .speed_kmph ∈ (validateRow noSensorRow).salvage_notes ∧
    ((validateRow noSensorRow).salvage_notes = SENSOR_FIELDS.map fieldTag ∧
      "all_sensors_invalid" ∈ (validateRow noSensorRow).rejection_reasons ∧
      (validateRow noSensorRow).validation_status = "rejected") :=
  ⟨by decide,
   (null_sensor_gets_note noSensorRow .speed_kmph).1 (by decide),
   (null_sensor_gets_note noSensorRow .speed_kmph).2 (fun g => by cases g <;> rfl)⟩

theorem scenario_pipeline_eq :
    rawTripMetrics [scenario1, scenario2]
      = [aggregateTrip "A" [validateRow scenario1, validateRow scenario2]] := by
  have hc : cleanedRows [scenario1, scenario2]
      = [validateRow scenario1, validateRow scenario2] := by decide
  have hk : tripKeys [validateRow scenario1, validateRow scenario2] = ["A"] := by
    decide
  have hg : tripGroup [validateRow scenario1, validateRow scenario2] "A"
      = [validateRow scenario1, validateRow scenario2] := by decide
  unfold rawTripMetrics tripMetricsOf
  rw [hc, hk]
  simp [hg]

theorem scenario_sorted :
    sortByTs [validateRow scenario1, validateRow scenario2]
      = [validateRow scenario1, validateRow scenario2] := by decide

theorem scenario_dts :
    dtSec [validateRow scenario1, validateRow scenario2] = [none, some 600] := by
  decide

theorem scenario_gap :
    (aggregateTrip "A" [validateRow scenario1, validateRow scenario2]).gap_count
      = 1 := by decide

theorem scenario_duration :
    (aggregateTrip "A"
        [validateRow scenario1, validateRow scenario2]).duration_minutes = 10 := by
  show ((dtSec (sortByTs [validateRow scenario1, validateRow scenario2])).map
      (fun d => d.getD 0)).sum / 60 = 10
  rw [scenario_sorted, scenario_dts]
  norm_num

theorem scenario_distance :
    (aggregateTrip "A"
        [validateRow scenario1, validateRow scenario2]).distance_km = 10 := by
  show (List.zipWith (fun r d => r.speed_kmph.getD 0 * (Option.getD d 0) / 3600)
      (sortByTs [validateRow scenario1, validateRow scenario2])
      (dtSec (sortByTs [validateRow scenario1, validateRow scenario2]))).sum = 10
  rw [scenario_sorted, scenario_dts]
  have h3 : (validateRow scenario1).speed_kmph = some 50 := by decide
  have h4 : (validateRow scenario2).speed_kmph = some 60 := by decide
  simp [h3, h4]
  norm_num

/-- C1 counterexample: on the two-row scenario input the aggregator
produces `distance_km = 10`, not `50*600/3600 = 8.33` — the inter-sample
delta is not weighted by the earlier sample's speed. -/
theorem scenario_distance_not_earlier_weighted :
    (rawTripMetrics [scenario1, scenario2]).map (·.distance_km) = [10] ∧
    ¬ ((10 : ℚ) = 50 * 600 / 3600) := by
  rw [scenario_pipeline_eq]
  refine ⟨?_, by norm_num⟩
  simp [scenario_distance]

/-- C1 amended: on the scenario input the aggregator produces for trip
A `gap_count = 1`, `duration_minutes = 10`, and
`distance_km = 60*600/3600 = 10` — each inter-sample delta is weighted
by the speed of the **later** sample, the row the delta is stored on. -/
theorem scenario_metrics :
    (rawTripMetrics [scenario1, scenario2]).map
        (fun m => (m.trip_id, m.gap_count, m.duration_minutes, m.distance_km))
      = [("A", 1, 10, 10)] ∧
    (10 : ℚ) = 60 * 600 / 3600 := by
  rw [scenario_pipeline_eq]
  refine ⟨?_, by norm_num⟩
  simp [scenario_gap, scenario_duration, scenario_distance]
  rfl

theorem filter_isSome_map (rows : List TripLevelRow) :
    (rows.filter (fun r => r.trip_id.isSome)).map (·.trip_id)
      = (rows.filterMap (·.trip_id)).map some := by
  induction rows with
  | nil => rfl
  | cons r rs ih =>
    cases h : r.trip_id with
    | none => simp [List.filter_cons, List.filterMap_cons, h, ih]
    | some a => simp [List.filter_cons, List.filterMap_cons, h, ih]

/-- C4 counterexample: a trip-level input holding the same non-null
`trip_id` twice yields two metrics rows for that single distinct trip
id, so `trip_id` is not unique across the dataset. -/
theorem trip_level_duplicates_kept :
    (tripLevelMetrics [dupTripRow, dupTripRow]).map (·.trip_id)
        = [some "A", some "A"] ∧
    (tripLevelMetrics [dupTripRow, dupTripRow]).length = 2 ∧
    ([dupTripRow, dupTripRow].filterMap (·.trip_id)).dedup.length = 1 ∧
    ¬ ((tripLevelMetrics [dupTripRow, dupTripRow]).map (·.trip_id)).Nodup := by
  decide

/-- C4 amended: the trip-level path drops rows with null `trip_id` and
produces one metrics row per remaining input row, carrying that row's
`trip_id`; hence when the non-null input trip ids are pairwise
distinct, the dataset has exactly one row per distinct non-null
`trip_id` and `trip_id` is unique across it. -/
theorem trip_level_row_per_input_row (rows : List TripLevelRow) :
    ((tripLevelMetrics rows).map (·.trip_id)
        = (rows.filterMap (·.trip_id)).map some) ∧
    ((rows.filterMap (·.trip_id)).Nodup →
      ((tripLevelMetrics rows).map (·.trip_id)).Nodup ∧
      (tripLevelMetrics rows).length = (rows.filterMap (·.trip_id)).length) := by
  have h1 : (tripLevelMetrics rows).map (·.trip_id)
      = (rows.filter (fun r => r.trip_id.isSome)).map (·.trip_id) := by
    unfold tripLevelMetrics
    rw [List.map_map]
    rfl
  have h2 := filter_isSome_map rows
  constructor
  · rw [h1, h2]
  · intro hnd
    constructor
    · rw [h1, h2]
      exact hnd.map (Option.some_injective _)
    · have := congrArg List.length (h1.trans h2)
      simpa using this

/-- C4 witness: on a three-row input with distinct non-null trip ids
and one null row, the dataset has one row per distinct trip id and
unique trip ids. -/
theorem trip_level_row_per_input_row_witness :
    ((tripLevelMetrics [dupTripRow, nullTripRow, tripRowB]).map (·.trip_id)
        = ([dupTripRow, nullTripRow, tripRowB].filterMap (·.trip_id)).map some) ∧
    ([dupTripRow, nullTripRow, tripRowB].filterMap (·.trip_id)).Nodup ∧
    ((tripLevelMetrics [dupTripRow, nullTripRow, tripRowB]).map (·.trip_id)).Nodup ∧
    (tripLevelMetrics [dupTripRow, nullTripRow, tripRowB]).length
      = ([dupTripRow, nullTripRow, tripRowB].filterMap (·.trip_id)).length :=
  ⟨(trip_level_row_per_input_row [dupTripRow, nullTripRow, tripRowB]).1,
   by decide,
   ((trip_level_row_per_input_row [dupTripRow, nullTripRow, tripRowB]).2 (by decide)).1,
   ((trip_level_row_per_input_row [dupTripRow, nullTripRow, tripRowB]).2 (by decide)).2⟩

theorem find?_congr_of_perm {α : Type} (p : α → Bool) {l l' : List α}
    (hp : l.Perm l') (h : ∀ a ∈ l, ∀ b ∈ l, p a → p b → a = b) :
    l.find? p = l'.find? p := by
  cases hfind : l.find? p with
  | none =>
    rw [List.find?_eq_none] at hfind
    exact (List.find?_eq_none.mpr fun x hx => hfind x (hp.symm.subset hx)).symm
  | some a =>
    have pa := List.find?_some hfind
    have ha := List.mem_of_find?_eq_some hfind
    have hs : (l'.find? p).isSome := List.find?_isSome.mpr ⟨a, hp.subset ha, pa⟩
    obtain ⟨b, hb⟩ := Option.isSome_iff_exists.mp hs
    have pb := List.find?_some hb
    have hbmem : b ∈ l := hp.symm.subset (List.mem_of_find?_eq_some hb)
    rw [hb, h a ha b hbmem pa pb]

theorem renameMap_fold_congr (L : List (String × List String))
    (cols cols' : List String)
    (hfind : ∀ ca ∈ L, cols.find? (fun c => ca.2.contains c)
        = cols'.find? (fun c => ca.2.contains c)) :
    ∀ m, L.foldl (renameStep cols) m = L.foldl (renameStep cols') m := by
  induction L with
  | nil => intro m; rfl
  | cons ca L ih =>
    intro m
    have h1 : renameStep cols m ca = renameStep cols' m ca := by
      unfold renameStep
      rw [hfind ca (by simp)]
    simp only [List.foldl_cons, h1]
    exact ih (fun x hx => hfind x (by simp [hx])) _

/-- C3 counterexample: the batch with headers
`["trip_id", "vehicleid"]` (both aliases of canonical `trip_id`) and
its permutation `["vehicleid", "trip_id"]` resolve differently: the
rename maps differ and the resolved column sets differ (the second
yields `trip_id` twice and loses `vehicleid`). -/
theorem alias_resolution_order_dependent :
    (["vehicleid", "trip_id"] : List String).Perm ["trip_id", "vehicleid"] ∧
    renameMap ["trip_id", "vehicleid"] ≠ renameMap ["vehicleid", "trip_id"] ∧
    resolve_columns ["trip_id", "vehicleid"] = ["trip_id", "vehicleid"] ∧
    resolve_columns ["vehicleid", "trip_id"] = ["trip_id", "trip_id"] ∧
    ¬ (resolve_columns ["vehicleid", "trip_id"]).Perm
        (resolve_columns ["trip_id", "vehicleid"]) := by
  refine ⟨List.Perm.swap _ _ _, by decide, by decide, by decide, ?_⟩
  intro hperm
  have := hperm.mem_iff (a := "vehicleid")
  simp [resolve_columns, renameMap, COLUMN_ALIASES, renameStep, insertAssoc,
    lookupAssoc] at this

/-- C3 amended: alias resolution is deterministic with respect to
header order whenever no canonical field has two distinct matching
headers in the batch — then every permutation of the headers yields the
same rename map, hence a permutation of the same resolved canonical
column list. -/
theorem alias_resolution_perm_invariant (cols cols' : List String)
    (hperm : cols.Perm cols')
    (huniq : ∀ ca ∈ COLUMN_ALIASES, ∀ a ∈ cols, ∀ b ∈ cols,
      ca.2.contains a → ca.2.contains b → a = b) :
    renameMap cols = renameMap cols' ∧
    (resolve_columns cols).Perm (resolve_columns cols') := by
  have hmap : renameMap cols = renameMap cols' := by
    unfold renameMap
    exact renameMap_fold_congr COLUMN_ALIASES cols cols'
      (fun ca hca => find?_congr_of_perm _ hperm
        (fun a ha b hb => huniq ca hca a ha b hb)) []
  refine ⟨hmap, ?_⟩
  unfold resolve_columns
  rw [hmap]
  exact hperm.map _

/-- C3 amended witness: the headers `["time", "speed", "foo"]` and
their rotation resolve to the same rename map and a permuted resolved
column list. -/
theorem alias_resolution_perm_invariant_witness :
    (["time", "speed", "foo"] : List String).Perm ["speed", "foo", "time"] ∧
    (∀ ca ∈ COLUMN_ALIASES, ∀ a ∈ (["time", "speed", "foo"] : List String),
      ∀ b ∈ (["time", "speed", "foo"] : List String),
      ca.2.contains a → ca.2.contains b → a = b) ∧
    renameMap ["time", "speed", "foo"] = renameMap ["speed", "foo", "time"] ∧
    (resolve_columns ["time", "speed", "foo"]).Perm
      (resolve_columns ["speed", "foo", "time"]) :=
  ⟨by decide, by decide,
   (alias_resolution_perm_invariant _ _ (by decide) (by decide)).1,
   (alias_resolution_perm_invariant _ _ (by decide) (by decide)).2⟩

theorem length_insertStr (s : String) (l : List String) :
    (insertStr s l).length = l.length + 1 := by
  induction l with
  | nil => rfl
  | cons x xs ih => by_cases h : strLe s x <;> simp [insertStr, h, ih]

theorem length_sortStrings (l : List String) :
    (sortStrings l).length = l.length := by
  induction l with
  | nil => rfl
  | cons x xs ih => simp [sortStrings, length_insertStr, ih]

theorem cleaned_trip_id_isSome (rows : List RawRow) :
    ∀ v ∈ cleanedRows rows, v.trip_id.isSome := by
  intro v hv
  unfold cleanedRows processChunk at hv
  simp only [List.mem_filter, List.mem_map, decide_eq_true_eq] at hv
  obtain ⟨⟨r, hr, hvr⟩, hval⟩ := hv
  subst hvr
  cases htr : r.trip_id with
  | some a =>
    show r.trip_id.isSome
    rw [htr]
    rfl
  | none =>
    exact absurd hval ((rejectionReasons_ne_nil_iff r).mpr (Or.inl htr))

theorem metrics_ne_nil (rows : List RawRow) (h : cleanedRows rows ≠ []) :
    rawTripMetrics rows ≠ [] := by
  unfold rawTripMetrics tripMetricsOf
  intro hMet
  have hkLen := congrArg List.length hMet
  simp only [List.length_map, List.length_nil] at hkLen
  have hk : tripKeys (cleanedRows rows) = [] := by
    cases hcase : tripKeys (cleanedRows rows) with
    | nil => rfl
    | cons a l => rw [hcase] at hkLen; simp at hkLen
  unfold tripKeys at hk
  have hs : sortStrings ((cleanedRows rows).filterMap (·.trip_id)) = [] :=
    (List.dedup_eq_nil _).mp hk
  have hLen := congrArg List.length hs
  rw [length_sortStrings] at hLen
  have he : (cleanedRows rows).filterMap (·.trip_id) = [] := by
    cases hcase : (cleanedRows rows).filterMap (·.trip_id) with
    | nil => rfl
    | cons a l => rw [hcase] at hLen; simp at hLen
  rw [List.filterMap_eq_nil_iff] at he
  obtain ⟨v, hv⟩ := List.exists_mem_of_ne_nil _ h
  have h3 := cleaned_trip_id_isSome rows v hv
  rw [he v hv] at h3
  simp at h3

/-- C5 counterexample: a run whose only row is fully null leaves the
cleaned dataset empty, and the raw-path trip metrics dataset is then
written with no columns at all — `trip_id` (and the rest of the
reporting contract) is absent. -/
theorem empty_run_has_no_metrics_columns :
    (validateRow allNullRow).validation_status = "rejected" ∧
    cleanedRows [allNullRow] = [] ∧
    rawMetricsColumns [allNullRow] = [] ∧
    ¬ "trip_id" ∈ rawMetricsColumns [allNullRow] := by decide

/-- C5 amended: the trip metrics dataset carries the five
reporting-contract column names on the trip-level path always, and on
the raw path whenever the cleaned dataset is non-empty; a raw-path run
with an empty cleaned dataset instead writes a metrics dataset with no
columns. -/
theorem reporting_columns_present (rows : List RawRow)
    (h : cleanedRows rows ≠ []) :
    (∀ c ∈ REPORTING_COLUMNS, c ∈ rawMetricsColumns rows) ∧
    (∀ c ∈ REPORTING_COLUMNS, c ∈ TRIP_LEVEL_METRICS_COLUMNS) := by
  constructor
  · intro c hc
    unfold rawMetricsColumns
    rw [if_neg (metrics_ne_nil rows h)]
    have hsub : ∀ c ∈ REPORTING_COLUMNS, c ∈ RAW_METRICS_ROW_KEYS := by decide
    exact hsub c hc
  · intro c hc
    have hsub2 : ∀ c ∈ REPORTING_COLUMNS, c ∈ TRIP_LEVEL_METRICS_COLUMNS := by
      decide
    exact hsub2 c hc

/-- C5 amended witness: the scenario run has a non-empty cleaned
dataset and its metrics columns include the reporting contract. -/
theorem reporting_columns_present_witness :
    cleanedRows [scenario1, scenario2] ≠ [] ∧
    (∀ c ∈ REPORTING_COLUMNS, c ∈ rawMetricsColumns [scenario1, scenario2]) ∧
    (∀ c ∈ REPORTING_COLUMNS, c ∈ TRIP_LEVEL_METRICS_COLUMNS) :=
  ⟨by decide,
   (reporting_columns_present [scenario1, scenario2] (by decide)).1,
   (reporting_columns_present [scenario1, scenario2] (by decide)).2⟩

end Telematics
